import Mathlib

/-!
Shallow embedding of the business logic of the Tenant_Rent_App_2 repository
(src/app.py), covering the tables created by init_db (app.py:18-69), the
write helper run_query (app.py:71-81), the form handlers (units tab,
tenants tab, invoices tab, payments tab) and the derived ledger and
dashboard projections.

Modelling conventions:
- SQLite REAL amounts are modelled as exact rationals.
- DATE values are modelled as their ISO "YYYY-MM-DD" strings, as produced
  by the sqlite3 default adapter for datetime.date; lexicographic string
  order on such strings is calendar order.
- Each SQL write statement becomes a function `DB → Except String DB`
  whose error value is the message sqlite3 raises; run_query wraps a
  statement exactly as app.py:71-81 does: it catches the exception,
  displays "Database Error: {e}" and returns None, so the caller's state
  is the unchanged database and execution continues.
- AUTOINCREMENT id generation is modelled as (max id in the table) + 1.
- st.error / st.success / st.warning displays are collected in a message
  list so that what the user is shown is part of each handler's result.
-/

structure Tenant where
  id : Nat
  name : String
  phone : String
  email : String
deriving DecidableEq

structure RentalUnit where
  id : Nat
  code : String
  floor : String
  rent_amount : ℚ
  status : String
  current_tenant_id : Option Nat
deriving DecidableEq

structure Invoice where
  id : Nat
  unit_id : Nat
  tenant_id : Nat
  amount : ℚ
  description : String
  status : String
  due_date : String
deriving DecidableEq

structure Payment where
  id : Nat
  tenant_id : Nat
  unit_id : Nat
  amount : ℚ
  date : String
  method : String
deriving DecidableEq

/-- The four tables created by init_db, app.py:24-67. -/
structure DB where
  tenants : List Tenant
  units : List RentalUnit
  invoices : List Invoice
  payments : List Payment
deriving DecidableEq

/-- Messages displayed by the handlers (st.error / st.success). -/
inductive Msg where
  | dbError (text : String)
  | success (text : String)
  | uiError (text : String)
deriving DecidableEq

/-- The st.error display performed inside run_query, app.py:80. -/
def showErr : Option String → List Msg
  | none => []
  | some e => [Msg.dbError ("Database Error: " ++ e)]

/-- run_query, app.py:71-81: executes one write statement; on any
exception it displays the error and returns None, leaving the caller to
continue with the database unchanged by this statement.  The result is
the state after the statement together with the displayed error, if any. -/
def run_query (act : DB → Except String DB) (s : DB) : DB × Option String :=
  match act s with
  | .ok s2 => (s2, none)
  | .error e => (s, some e)

def nextTenantId (s : DB) : Nat := (s.tenants.map (fun t => t.id)).foldr max 0 + 1

def nextUnitId (s : DB) : Nat := (s.units.map (fun u => u.id)).foldr max 0 + 1

def nextInvoiceId (s : DB) : Nat := (s.invoices.map (fun i => i.id)).foldr max 0 + 1

/-- INSERT INTO tenants (name, phone, email) VALUES (?,?,?) — app.py:200. -/
def insertTenant (name phone email : String) (s : DB) : Except String DB :=
  .ok { s with tenants := s.tenants ++
        [{ id := nextTenantId s, name := name, phone := phone, email := email }] }

/-- INSERT INTO units (code, floor, rent_amount) VALUES (?,?,?) — app.py:175.
The units schema (app.py:33-43) declares code TEXT UNIQUE NOT NULL and the
defaults status='vacant', current_tenant_id=NULL; a duplicate code raises
the UNIQUE-constraint IntegrityError and inserts nothing. -/
def insertUnit (code floor : String) (rent : ℚ) (s : DB) : Except String DB :=
  if s.units.any (fun u => u.code == code) then
    .error "UNIQUE constraint failed: units.code"
  else
    .ok { s with units := s.units ++
          [{ id := nextUnitId s, code := code, floor := floor, rent_amount := rent,
             status := "vacant", current_tenant_id := none }] }

/-- UPDATE units SET status='occupied', current_tenant_id=? WHERE id=? —
app.py:218.  The update is unconditional on the unit's current status.
With PRAGMA foreign_keys=ON (app.py:15), writing a current_tenant_id that
matches no tenants row raises a foreign-key error (and then no row is
changed); if no unit matches the WHERE clause the statement succeeds
having updated nothing. -/
def updateAssign (t_idx u_idx : Nat) (s : DB) : Except String DB :=
  if (s.units.any (fun u => u.id == u_idx)) && !(s.tenants.any (fun t => t.id == t_idx)) then
    .error "FOREIGN KEY constraint failed"
  else
    .ok { s with units := s.units.map (fun u =>
          if u.id == u_idx then { u with status := "occupied", current_tenant_id := some t_idx }
          else u) }

/-- UPDATE units SET status='vacant', current_tenant_id=NULL WHERE
current_tenant_id=? — app.py:240. -/
def vacateByTenant (del_id : Nat) (s : DB) : Except String DB :=
  .ok { s with units := s.units.map (fun u =>
        if u.current_tenant_id == some del_id then
          { u with status := "vacant", current_tenant_id := none }
        else u) }

/-- DELETE FROM invoices WHERE tenant_id=? — app.py:244. -/
def deleteInvoicesOf (del_id : Nat) (s : DB) : Except String DB :=
  .ok { s with invoices := s.invoices.filter (fun i => !(i.tenant_id == del_id)) }

/-- DELETE FROM payments WHERE tenant_id=? — app.py:245. -/
def deletePaymentsOf (del_id : Nat) (s : DB) : Except String DB :=
  .ok { s with payments := s.payments.filter (fun p => !(p.tenant_id == del_id)) }

/-- DELETE FROM tenants WHERE id=? — app.py:248.  With foreign keys on,
deleting a tenant still referenced by a unit, an invoice or a payment
raises a foreign-key error and deletes nothing; deleting a non-existent id
succeeds having deleted nothing. -/
def deleteTenantRow (del_id : Nat) (s : DB) : Except String DB :=
  if (s.tenants.any (fun t => t.id == del_id)) &&
     ((s.units.any (fun u => u.current_tenant_id == some del_id)) ||
      (s.invoices.any (fun i => i.tenant_id == del_id)) ||
      (s.payments.any (fun p => p.tenant_id == del_id))) then
    .error "FOREIGN KEY constraint failed"
  else
    .ok { s with tenants := s.tenants.filter (fun t => !(t.id == del_id)) }

/-- INSERT INTO invoices (unit_id, tenant_id, amount, description,
due_date, status) VALUES (?,?,?,?,?,'unpaid') — app.py:292-295. -/
def insertInvoice (unit_id tenant_id : Nat) (amount : ℚ) (description due_date : String)
    (s : DB) : Except String DB :=
  if (s.units.any (fun u => u.id == unit_id)) && (s.tenants.any (fun t => t.id == tenant_id)) then
    .ok { s with invoices := s.invoices ++
          [{ id := nextInvoiceId s, unit_id := unit_id, tenant_id := tenant_id,
             amount := amount, description := description, status := "unpaid",
             due_date := due_date }] }
  else
    .error "FOREIGN KEY constraint failed"

/-- INSERT INTO payments (tenant_id, unit_id, amount, date, method)
VALUES (?,?,?,?, 'Cash') — app.py:335-336.  The SQL text has four
parameter slots (tenant_id, unit_id, amount, date) but the call site
supplies only three values — pay_date, read from the form at app.py:332,
is never passed — so sqlite3 raises ProgrammingError while binding,
before the statement executes: no row is ever inserted. -/
def insertPayment (_tenant_id _unit_id : Nat) (_amount : ℚ) (_s : DB) : Except String DB :=
  .error "Incorrect number of bindings supplied. The current statement uses 4, and there are 3 supplied."

/-- UPDATE invoices SET status='paid' WHERE id=? — app.py:338. -/
def updateInvoicePaid (inv_id : Nat) (s : DB) : Except String DB :=
  .ok { s with invoices := s.invoices.map (fun i =>
        if i.id == inv_id then { i with status := "paid" } else i) }

/-- The add-unit form handler, app.py:174-177 (CreateUnit). -/
def unit_form (s : DB) (code floor : String) (rent : ℚ) : DB × List Msg :=
  let r := run_query (insertUnit code floor rent) s
  (r.1, showErr r.2 ++ [Msg.success "Unit Added!"])

/-- The add-tenant form handler, app.py:198-204 (CreateTenant). -/
def add_tenant (s : DB) (t_name t_phone t_email : String) : DB × List Msg :=
  if t_name ≠ "" then
    let r := run_query (insertTenant t_name t_phone t_email) s
    (r.1, showErr r.2 ++ [Msg.success ("Tenant " ++ t_name ++ " created.")])
  else
    (s, [Msg.uiError "Name required"])

/-- The assign form handler, app.py:217-220 (AssignTenant).  The UI only
offers vacant units in its select box (app.py:209); the submitted update
itself is unconditional. -/
def assign_form (s : DB) (u_idx t_idx : Nat) : DB × List Msg :=
  let r := run_query (updateAssign t_idx u_idx) s
  (r.1, showErr r.2 ++ [Msg.success "Tenant moved in successfully!"])

/-- The delete-tenant form handler, app.py:237-255 (DeleteTenant).  The
try/except around the body can never reach its except branch (app.py:253-255,
the actionable "check the box above to force delete" warning), because
run_query catches every exception internally and returns None instead of
raising; so the success display at app.py:250 always runs. -/
def delete_tenant_form (s : DB) (del_id : Nat) (delete_history : Bool) : DB × List Msg :=
  let r1 := run_query (vacateByTenant del_id) s
  let step2 : DB × List Msg :=
    if delete_history then
      let ra := run_query (deleteInvoicesOf del_id) r1.1
      let rb := run_query (deletePaymentsOf del_id) ra.1
      (rb.1, showErr ra.2 ++ showErr rb.2)
    else (r1.1, [])
  let r3 := run_query (deleteTenantRow del_id) step2.1
  (r3.1, showErr r1.2 ++ step2.2 ++ showErr r3.2 ++ [Msg.success "Tenant deleted."])

/-- The create-invoice form handler, app.py:291-297 (CreateInvoice);
unit_id and tenant_id are the values of the selected occupied-unit row. -/
def inv_form (s : DB) (unit_id tenant_id : Nat) (amount : ℚ) (desc due_date : String) :
    DB × List Msg :=
  let r := run_query (insertInvoice unit_id tenant_id amount desc due_date) s
  (r.1, showErr r.2 ++ [Msg.success "Invoice Generated"])

/-- The record-payment form handler, app.py:334-340 (RecordPayment);
tenant_id, unit_id, inv_id are the columns of the selected unpaid-invoice
row, pay_amt and pay_date the form inputs.  pay_date is accepted by the
form (app.py:332) but never used by either statement.  The two writes run
as two separate run_query calls on two separate connections — there is no
enclosing transaction — and the second runs regardless of the first's
outcome. -/
def pay_form (s : DB) (tenant_id unit_id inv_id : Nat) (pay_amt : ℚ) (_pay_date : String) :
    DB × List Msg :=
  let r1 := run_query (insertPayment tenant_id unit_id pay_amt) s
  let r2 := run_query (updateInvoicePaid inv_id) r1.1
  (r2.1, showErr r1.2 ++ showErr r2.2 ++ [Msg.success "Payment Recorded!"])

/-- One row of the ledger DataFrame built at app.py:361-364; columns as
aliased in the two SELECTs. -/
structure LedgerLine where
  Date : String
  Item : String
  Debit : ℚ
  Credit : ℚ
deriving DecidableEq

/-- SELECT due_date as Date, description as Item, amount as Debit, 0 as
Credit FROM invoices WHERE tenant_id=? — app.py:361. -/
def debitsOf (s : DB) (t : Nat) : List LedgerLine :=
  (s.invoices.filter (fun i => i.tenant_id == t)).map
    (fun i => { Date := i.due_date, Item := i.description, Debit := i.amount, Credit := 0 })

/-- SELECT date as Date, 'Payment Received' as Item, 0 as Debit, amount as
Credit FROM payments WHERE tenant_id=? — app.py:362. -/
def creditsOf (s : DB) (t : Nat) : List LedgerLine :=
  (s.payments.filter (fun p => p.tenant_id == t)).map
    (fun p => { Date := p.date, Item := "Payment Received", Debit := 0, Credit := p.amount })

/-- pd.concat([debits, credits]) — app.py:364, before the sort.  The
subsequent sort_values(by="Date") rearranges these rows into ascending
Date order; since pandas' default sort kind is quicksort, the relative
order of rows with equal dates is not pinned down by the source, so the
theorems below that concern the sorted ledger quantify over an arbitrary
Date-ordered permutation of this list rather than fixing one. -/
def ledgerRows (s : DB) (t : Nat) : List LedgerLine :=
  debitsOf s t ++ creditsOf s t

/-- The Balance column, app.py:365: the cumulative sum of Debit − Credit
in the row order of the (sorted) ledger, starting from accumulator acc. -/
def balances (acc : ℚ) : List LedgerLine → List ℚ
  | [] => []
  | l :: ls => (acc + (l.Debit - l.Credit)) :: balances (acc + (l.Debit - l.Credit)) ls

/-- total_due = ledger['Debit'].sum() - ledger['Credit'].sum() —
app.py:369. -/
def total_due (led : List LedgerLine) : ℚ :=
  (led.map (fun l => l.Debit)).sum - (led.map (fun l => l.Credit)).sum

/-- The correlated subquery of the dashboard overview, app.py:135:
SELECT status FROM invoices WHERE unit_id = u.id ORDER BY due_date DESC
LIMIT 1.  Modelled as a scan for an invoice of the unit with maximal
due_date (SQLite leaves the choice among equal due_dates unspecified;
this scan keeps the first maximal one). -/
def laterOf (best : Option Invoice) (i : Invoice) : Option Invoice :=
  match best with
  | none => some i
  | some b => if b.due_date < i.due_date then some i else some b

def latestInvoice (s : DB) (u_id : Nat) : Option Invoice :=
  (s.invoices.filter (fun i => i.unit_id == u_id)).foldl laterOf none

/-- rent_status of a unit in the overview query, app.py:135: the status of
the most recent invoice by due_date, COALESCEd to 'unpaid' when the unit
has no invoice. -/
def rent_status (s : DB) (u_id : Nat) : String :=
  match latestInvoice s u_id with
  | none => "unpaid"
  | some i => i.status

/-- The dashboard card colour, app.py:151-152: green when rent_status ==
'paid', otherwise red; overridden to grey whenever the unit itself is
vacant, regardless of the invoice-derived rent_status. -/
def status_color (unit_status rent_st : String) : String :=
  let c := if rent_st == "paid" then "#28a745" else "#dc3545"
  if unit_status == "vacant" then "#6c757d" else c

/-- Concrete store: one tenant occupying unit 101 with one unpaid
invoice, no payments. -/
def ashaDB : DB :=
  { tenants := [{ id := 1, name := "Asha", phone := "", email := "" }],
    units := [{ id := 1, code := "101", floor := "1st", rent_amount := 5000,
                status := "occupied", current_tenant_id := some 1 }],
    invoices := [{ id := 1, unit_id := 1, tenant_id := 1, amount := 5000,
                   description := "Monthly Rent", status := "unpaid",
                   due_date := "2024-01-05" }],
    payments := [] }

/-- Concrete store: a single unit with code 101 and no tenants. -/
def dupDB : DB :=
  { tenants := [],
    units := [{ id := 1, code := "101", floor := "1st", rent_amount := 5000,
                status := "vacant", current_tenant_id := none }],
    invoices := [], payments := [] }

/-- Concrete store: unit 1 occupied by tenant 1, with tenant 2 also on
file. -/
def occDB : DB :=
  { tenants := [{ id := 1, name := "Asha", phone := "", email := "" },
                { id := 2, name := "Bala", phone := "", email := "" }],
    units := [{ id := 1, code := "101", floor := "1st", rent_amount := 5000,
                status := "occupied", current_tenant_id := some 1 }],
    invoices := [], payments := [] }

/-- Concrete store: tenant 1 with one invoice (due 2024-01-05) and one
payment (dated 2024-01-06). -/
def ledgDB : DB :=
  { tenants := [{ id := 1, name := "Asha", phone := "", email := "" }],
    units := [{ id := 1, code := "101", floor := "1st", rent_amount := 5000,
                status := "occupied", current_tenant_id := some 1 }],
    invoices := [{ id := 1, unit_id := 1, tenant_id := 1, amount := 5000,
                   description := "Monthly Rent", status := "paid",
                   due_date := "2024-01-05" }],
    payments := [{ id := 1, tenant_id := 1, unit_id := 1, amount := 5000,
                   date := "2024-01-06", method := "Cash" }] }

/-- Whether an optional tenant reference points at an existing row of the
given tenants table. -/
def refOk (tenants : List Tenant) : Option Nat → Bool
  | none => true
  | some t => tenants.any (fun r => r.id == t)

/-- One unit's occupancy fields are consistent: the status is 'occupied'
exactly when current_tenant_id is non-null, and a non-null
current_tenant_id points at an existing tenant.  This is the inductive
form of the spec's occupancy invariant, strengthened so that it is
preserved statement by statement. -/
def occUnitOk (tenants : List Tenant) (u : RentalUnit) : Bool :=
  ((u.status == "occupied") == u.current_tenant_id.isSome) &&
  refOk tenants u.current_tenant_id

/-- The strengthened occupancy invariant over the whole store. -/
def occInv (s : DB) : Bool :=
  s.units.all (occUnitOk s.tenants)

/-- The unit-occupancy invariant exactly as the spec words it: status ==
'occupied' iff current_tenant_id is non-null and refers to an existing
tenant row. -/
def claimInv (s : DB) : Bool :=
  s.units.all (fun u =>
    (u.status == "occupied") ==
      (u.current_tenant_id.isSome && refOk s.tenants u.current_tenant_id))

/-- C1: on the store ashaDB (one unpaid invoice of 5000 for tenant 1),
submitting the payment form marks the invoice 'paid' yet inserts no
Payment row: the INSERT at app.py:335-336 binds three values to four
parameter slots and so always fails, the failure is swallowed by
run_query as a generic displayed message, and the handler proceeds to
update the invoice and report success.  This evaluates the code at a
concrete failing input for the claim that a successful RecordPayment
leaves exactly one new payment row and is atomic. -/
theorem pay_form_paid_without_payment_row :
    (pay_form ashaDB 1 1 1 5000 "2024-01-06").1.payments = [] ∧
    ((pay_form ashaDB 1 1 1 5000 "2024-01-06").1.invoices.map (fun i => i.status)) = ["paid"] ∧
    (pay_form ashaDB 1 1 1 5000 "2024-01-06").2 =
      [Msg.dbError "Database Error: Incorrect number of bindings supplied. The current statement uses 4, and there are 3 supplied.",
       Msg.success "Payment Recorded!"] := by
  decide

/-- C3: on the store ashaDB (tenant 1 has an invoice), deleting tenant 1
with the cascade box unchecked leaves the tenant row in place, but the
foreign-key conflict is displayed only as a generic 'Database Error'
message and is immediately followed by the 'Tenant deleted.' success
display; the distinct actionable branch at app.py:253-255 is unreachable
because run_query never raises.  The unit is also vacated even though the
delete failed. -/
theorem delete_tenant_conflict_not_surfaced :
    (delete_tenant_form ashaDB 1 false).1.tenants = ashaDB.tenants ∧
    ((delete_tenant_form ashaDB 1 false).1.units.map (fun u => u.status)) = ["vacant"] ∧
    (delete_tenant_form ashaDB 1 false).2 =
      [Msg.dbError "Database Error: FOREIGN KEY constraint failed",
       Msg.success "Tenant deleted."] := by
  decide

/-- C4, counterexample: on the store dupDB (a unit with code 101 already
exists), submitting the add-unit form with code 101 makes the storage
write fail, yet the handler's caller receives no error of any kind: the
failure is displayed as a generic message inside run_query and the
handler still displays 'Unit Added!', with the store unchanged.  So a
storage-layer write failure is swallowed and execution continues as if
the write succeeded, contrary to the claim. -/
theorem write_failure_swallowed_cex :
    (run_query (insertUnit "101" "2nd" 6000) dupDB).2 =
      some "UNIQUE constraint failed: units.code" ∧
    (unit_form dupDB "101" "2nd" 6000).1 = dupDB ∧
    (unit_form dupDB "101" "2nd" 6000).2 =
      [Msg.dbError "Database Error: UNIQUE constraint failed: units.code",
       Msg.success "Unit Added!"] := by
  decide

/-- C5, counterexample: on the store occDB, unit 1 is occupied by tenant
1; submitting the assignment for unit 1 and tenant 2 does not fail with
any error and does not leave the unit unchanged: the unconditional UPDATE
overwrites current_tenant_id with 2 and the handler reports success. -/
theorem assign_occupied_no_state_error_cex :
    (assign_form occDB 1 2).1.units =
      [{ id := 1, code := "101", floor := "1st", rent_amount := 5000,
         status := "occupied", current_tenant_id := some 2 }] ∧
    (assign_form occDB 1 2).2 = [Msg.success "Tenant moved in successfully!"] := by
  decide

/-- Helper: the last display of a message list that ends in a given
message. -/
theorem getLast?_append_right {α : Type} (xs : List α) {ys : List α} {m : α}
    (h : ys.getLast? = some m) : (xs ++ ys).getLast? = some m := by
  have hne : ys ≠ [] := by
    intro hn
    subst hn
    simp at h
  rw [List.getLast?_append_of_ne_nil xs hne, h]

/-- C4 (amended): run_query catches every storage failure internally,
displays it as a generic 'Database Error' message and returns the
unchanged database with the message — no typed error ever reaches the
handler — and every form handler (CreateUnit, CreateTenant with a
non-empty name, AssignTenant, DeleteTenant, CreateInvoice and
RecordPayment) continues past any failure, ending with its success
display. -/
theorem run_query_swallows_and_handlers_continue
    (act : DB → Except String DB) (s : DB)
    (e code floor d name phone email de du : String) (rent amt : ℚ)
    (u t del tid uid iid : Nat) (h : act s = .error e) (hn : name ≠ "") :
    run_query act s = (s, some e) ∧
    (unit_form s code floor rent).2.getLast? = some (Msg.success "Unit Added!") ∧
    (add_tenant s name phone email).2.getLast? =
      some (Msg.success ("Tenant " ++ name ++ " created.")) ∧
    (assign_form s u t).2.getLast? = some (Msg.success "Tenant moved in successfully!") ∧
    (delete_tenant_form s del true).2.getLast? = some (Msg.success "Tenant deleted.") ∧
    (inv_form s uid tid amt de du).2.getLast? = some (Msg.success "Invoice Generated") ∧
    (pay_form s tid uid iid amt d).2.getLast? = some (Msg.success "Payment Recorded!") := by
  have base : ∀ m : Msg, ([m] : List Msg).getLast? = some m := fun _ => rfl
  refine ⟨by simp [run_query, h], ?_, ?_, ?_, ?_, ?_, ?_⟩
  · exact getLast?_append_right _ (base _)
  · unfold add_tenant
    rw [if_pos hn]
    exact getLast?_append_right _ (base _)
  · exact getLast?_append_right _ (base _)
  · exact getLast?_append_right _ (base _)
  · exact getLast?_append_right _ (base _)
  · exact getLast?_append_right _ (base _)

/-- C4 amended, witness at a concrete failing write: on dupDB (a unit
but no tenants) the invoice INSERT fails its foreign-key check, run_query
hands back the unchanged store with the message, and every handler —
including the invoice form whose own insert is the failing one — still
ends with its success display. -/
theorem run_query_swallows_witness :
    run_query (insertInvoice 1 1 5000 "Rent" "2024-02-05") dupDB =
      (dupDB, some "FOREIGN KEY constraint failed") ∧
    (unit_form dupDB "101" "2nd" 6000).2.getLast? = some (Msg.success "Unit Added!") ∧
    (add_tenant dupDB "Bala" "99" "b@x.in").2.getLast? =
      some (Msg.success ("Tenant " ++ "Bala" ++ " created.")) ∧
    (assign_form dupDB 1 1).2.getLast? = some (Msg.success "Tenant moved in successfully!") ∧
    (delete_tenant_form dupDB 1 true).2.getLast? = some (Msg.success "Tenant deleted.") ∧
    (inv_form dupDB 1 1 5000 "Rent" "2024-02-05").2.getLast? =
      some (Msg.success "Invoice Generated") ∧
    (pay_form dupDB 1 1 1 5000 "2024-01-06").2.getLast? =
      some (Msg.success "Payment Recorded!") :=
  run_query_swallows_and_handlers_continue (insertInvoice 1 1 5000 "Rent" "2024-02-05") dupDB
    "FOREIGN KEY constraint failed" "101" "2nd" "2024-01-06" "Bala" "99" "b@x.in" "Rent"
    "2024-02-05" 6000 5000 1 1 1 1 1 1 rfl (by decide)

/-- C5 (amended): the assignment UPDATE is unconditional — whenever the
chosen tenant id exists (so the foreign-key check passes), submitting the
assign form sets status := 'occupied' and current_tenant_id := tenant on
the matching unit whatever its previous status (overwriting any current
occupant), updates nothing else, and reports success; on a vacant unit
this is exactly the claimed effect.  Only the UI's vacant-only select box
restricts which units can be chosen. -/
theorem assign_unconditional (s : DB) (u t : Nat)
    (ht : s.tenants.any (fun r => r.id == t) = true) :
    (assign_form s u t).1.units =
      s.units.map (fun x =>
        if x.id == u then { x with status := "occupied", current_tenant_id := some t }
        else x) ∧
    (assign_form s u t).2 = [Msg.success "Tenant moved in successfully!"] := by
  constructor <;> simp [assign_form, run_query, updateAssign, ht, showErr]

/-- C5 amended, witness: assigning tenant 2 to the already-occupied unit
1 of occDB. -/
theorem assign_unconditional_witness :
    (assign_form occDB 1 2).1.units =
      occDB.units.map (fun x =>
        if x.id == 1 then { x with status := "occupied", current_tenant_id := some 2 }
        else x) ∧
    (assign_form occDB 1 2).2 = [Msg.success "Tenant moved in successfully!"] :=
  assign_unconditional occDB 1 2 rfl

/-- C9: creating a unit with a fresh code succeeds, and the new row
starts with status 'vacant' and a null current_tenant_id; immediately
repeating the creation with the same code makes the INSERT fail with the
unique-constraint violation on units.code (the spec's ConflictError) and
inserts no row — the store is left exactly as after the first call. -/
theorem create_unit_duplicate_conflict (s : DB) (code floor floor2 : String)
    (rent rent2 : ℚ) (hfresh : s.units.any (fun x => x.code == code) = false) :
    (unit_form s code floor rent).1.units =
      s.units ++ [{ id := nextUnitId s, code := code, floor := floor, rent_amount := rent,
                    status := "vacant", current_tenant_id := none }] ∧
    (unit_form s code floor rent).2 = [Msg.success "Unit Added!"] ∧
    (run_query (insertUnit code floor2 rent2) (unit_form s code floor rent).1).2 =
      some "UNIQUE constraint failed: units.code" ∧
    (unit_form (unit_form s code floor rent).1 code floor2 rent2).1 =
      (unit_form s code floor rent).1 := by
  have h1 : (unit_form s code floor rent).1 =
      { s with units := s.units ++
        [{ id := nextUnitId s, code := code, floor := floor, rent_amount := rent,
           status := "vacant", current_tenant_id := none }] } := by
    simp [unit_form, run_query, insertUnit, hfresh]
  have h2 : insertUnit code floor2 rent2 (unit_form s code floor rent).1 =
      .error "UNIQUE constraint failed: units.code" := by
    rw [h1]
    have hmem : (({ s with units := s.units ++
        [{ id := nextUnitId s, code := code, floor := floor, rent_amount := rent,
           status := "vacant", current_tenant_id := none }] } : DB).units.any
          (fun x => x.code == code)) = true := by
      simp
    simp only [insertUnit, hmem, if_true]
  refine ⟨by rw [h1], by simp [unit_form, run_query, insertUnit, hfresh, showErr], ?_, ?_⟩
  · generalize hS : (unit_form s code floor rent).1 = S1 at h2
    simp [run_query, h2]
  · generalize hS : (unit_form s code floor rent).1 = S1 at h2
    simp [unit_form, run_query, h2]

/-- C9, witness: creating code 202 on dupDB and then repeating it. -/
theorem create_unit_duplicate_conflict_witness :
    (unit_form dupDB "202" "2nd" 7000).1.units =
      dupDB.units ++ [{ id := nextUnitId dupDB, code := "202", floor := "2nd",
                        rent_amount := 7000, status := "vacant",
                        current_tenant_id := none }] ∧
    (unit_form dupDB "202" "2nd" 7000).2 = [Msg.success "Unit Added!"] ∧
    (run_query (insertUnit "202" "3rd" 8000) (unit_form dupDB "202" "2nd" 7000).1).2 =
      some "UNIQUE constraint failed: units.code" ∧
    (unit_form (unit_form dupDB "202" "2nd" 7000).1 "202" "3rd" 8000).1 =
      (unit_form dupDB "202" "2nd" 7000).1 :=
  create_unit_duplicate_conflict dupDB "202" "2nd" "3rd" 7000 8000 rfl

/-- C10: the payment form performs no validation of the payment amount —
the outcome is identical for every amount and date entered, in particular
for amounts strictly below or above the invoice's amount — and the
invoice selected is unconditionally marked 'paid'. -/
theorem record_payment_no_amount_check (s : DB) (tid uid iid : Nat) (amt amt2 : ℚ)
    (d d2 : String) (j : Invoice)
    (hj : j ∈ (pay_form s tid uid iid amt d).1.invoices) (hid : j.id = iid) :
    j.status = "paid" ∧
    pay_form s tid uid iid amt d = pay_form s tid uid iid amt2 d2 ∧
    (pay_form s tid uid iid amt d).2 =
      [Msg.dbError "Database Error: Incorrect number of bindings supplied. The current statement uses 4, and there are 3 supplied.",
       Msg.success "Payment Recorded!"] := by
  refine ⟨?_, rfl, rfl⟩
  simp only [pay_form, run_query, insertPayment, updateInvoicePaid, List.mem_map] at hj
  obtain ⟨i, hi, rfl⟩ := hj
  by_cases hb : i.id = iid
  · simp [hb]
  · simp [hb] at hid

/-- Helper: the last entry of the running-balance column is the starting
accumulator plus total debits minus total credits of the scanned rows. -/
theorem balances_getLast? : ∀ (l : List LedgerLine) (acc : ℚ), l ≠ [] →
    (balances acc l).getLast? = some (acc + total_due l)
  | [], _, h => absurd rfl h
  | [a], acc, _ => by
    rw [show balances acc [a] = [acc + (a.Debit - a.Credit)] from rfl]
    rw [show ([acc + (a.Debit - a.Credit)] : List ℚ).getLast? =
        some (acc + (a.Debit - a.Credit)) from rfl]
    simp [total_due]
  | a :: b :: tl, acc, _ => by
    rw [show balances acc (a :: b :: tl) =
        [acc + (a.Debit - a.Credit)] ++ balances (acc + (a.Debit - a.Credit)) (b :: tl) from rfl]
    rw [getLast?_append_right _ (balances_getLast? (b :: tl) (acc + (a.Debit - a.Credit))
        (by simp))]
    congr 1
    simp [total_due]
    ring

/-- C7: for any tenant and any Date-sorted rearrangement of the
concatenated debit and credit rows (the sort returns some permutation of
them), the reported outstanding balance total_due equals total debits
minus total credits of the rows and is therefore the same for the sorted
ledger as for the raw rows — identical on every rebuild, whatever order
the sort returns; when the ledger is non-empty its last running balance
equals that outstanding balance; and a tenant with no invoices and no
payments gets an empty ledger with balance 0. -/
theorem ledger_balance_reconciliation (s : DB) (t : Nat) (sorted : List LedgerLine)
    (hperm : sorted.Perm (ledgerRows s t)) :
    total_due sorted = total_due (ledgerRows s t) ∧
    (sorted ≠ [] → (balances 0 sorted).getLast? = some (total_due sorted)) ∧
    (s.invoices.filter (fun i => i.tenant_id == t) = [] →
     s.payments.filter (fun p => p.tenant_id == t) = [] →
     ledgerRows s t = [] ∧ total_due (ledgerRows s t) = 0) := by
  refine ⟨?_, ?_, ?_⟩
  · have hd := (hperm.map (fun l => l.Debit)).sum_eq
    have hc := (hperm.map (fun l => l.Credit)).sum_eq
    unfold total_due
    rw [hd, hc]
  · intro hne
    rw [balances_getLast? sorted 0 hne, zero_add]
  · intro hi hp
    constructor
    · simp [ledgerRows, debitsOf, creditsOf, hi, hp]
    · simp [ledgerRows, debitsOf, creditsOf, total_due, hi, hp]

/-- C7, witness: tenant 1 of ledgDB with its date-sorted ledger (one 5000
debit then one 5000 payment, outstanding balance 0), and tenant 2 with no
rows at all (empty ledger, balance 0). -/
theorem ledger_balance_reconciliation_witness :
    (total_due [{ Date := "2024-01-05", Item := "Monthly Rent", Debit := 5000, Credit := 0 },
                { Date := "2024-01-06", Item := "Payment Received", Debit := 0, Credit := 5000 }] =
       total_due (ledgerRows ledgDB 1) ∧
     (([{ Date := "2024-01-05", Item := "Monthly Rent", Debit := 5000, Credit := 0 },
        { Date := "2024-01-06", Item := "Payment Received", Debit := 0, Credit := 5000 }] :
          List LedgerLine) ≠ [] →
       (balances 0 [{ Date := "2024-01-05", Item := "Monthly Rent", Debit := 5000, Credit := 0 },
                    { Date := "2024-01-06", Item := "Payment Received", Debit := 0,
                      Credit := 5000 }]).getLast? =
         some (total_due
           [{ Date := "2024-01-05", Item := "Monthly Rent", Debit := 5000, Credit := 0 },
            { Date := "2024-01-06", Item := "Payment Received", Debit := 0, Credit := 5000 }])) ∧
     (ledgDB.invoices.filter (fun i => i.tenant_id == 1) = [] →
      ledgDB.payments.filter (fun p => p.tenant_id == 1) = [] →
      ledgerRows ledgDB 1 = [] ∧ total_due (ledgerRows ledgDB 1) = 0)) ∧
    (total_due [] = total_due (ledgerRows ledgDB 2) ∧
     (([] : List LedgerLine) ≠ [] →
       (balances 0 []).getLast? = some (total_due [])) ∧
     (ledgDB.invoices.filter (fun i => i.tenant_id == 2) = [] →
      ledgDB.payments.filter (fun p => p.tenant_id == 2) = [] →
      ledgerRows ledgDB 2 = [] ∧ total_due (ledgerRows ledgDB 2) = 0)) :=
  ⟨ledger_balance_reconciliation ledgDB 1
    [{ Date := "2024-01-05", Item := "Monthly Rent", Debit := 5000, Credit := 0 },
     { Date := "2024-01-06", Item := "Payment Received", Debit := 0, Credit := 5000 }]
    (by decide),
   ledger_balance_reconciliation ledgDB 2 [] (by decide)⟩

/-- C10, witness: paying 1 (strictly below the 5000 invoice) on ashaDB
gives the same result as paying 9999 (strictly above), and the invoice
ends up 'paid'. -/
theorem record_payment_no_amount_check_witness :
    ({ id := 1, unit_id := 1, tenant_id := 1, amount := 5000,
       description := "Monthly Rent", status := "paid",
       due_date := "2024-01-05" } : Invoice).status = "paid" ∧
    pay_form ashaDB 1 1 1 1 "2024-01-06" = pay_form ashaDB 1 1 1 9999 "2025-12-31" ∧
    (pay_form ashaDB 1 1 1 1 "2024-01-06").2 =
      [Msg.dbError "Database Error: Incorrect number of bindings supplied. The current statement uses 4, and there are 3 supplied.",
       Msg.success "Payment Recorded!"] :=
  record_payment_no_amount_check ashaDB 1 1 1 1 9999 "2024-01-06" "2025-12-31"
    { id := 1, unit_id := 1, tenant_id := 1, amount := 5000,
      description := "Monthly Rent", status := "paid", due_date := "2024-01-05" }
    (by decide) rfl

/-- Helper: folding laterOf from a some-accumulator yields an invoice
that is the accumulator or comes from the list, and whose due_date is
maximal among the accumulator and the list. -/
theorem foldl_laterOf_spec : ∀ (l : List Invoice) (b : Invoice),
    ∃ r, l.foldl laterOf (some b) = some r ∧ (r = b ∨ r ∈ l) ∧
      b.due_date ≤ r.due_date ∧ ∀ j ∈ l, j.due_date ≤ r.due_date := by
  intro l
  induction l with
  | nil => exact fun b => ⟨b, rfl, Or.inl rfl, le_refl _, by simp⟩
  | cons a tl ih =>
    intro b
    by_cases hlt : b.due_date < a.due_date
    · obtain ⟨r, hr, hmem, hle, hall⟩ := ih a
      refine ⟨r, ?_, ?_, le_trans (le_of_lt hlt) hle, ?_⟩
      · simpa [laterOf, hlt] using hr
      · rcases hmem with h1 | h2
        · exact Or.inr (h1 ▸ List.mem_cons_self a tl)
        · exact Or.inr (List.mem_cons_of_mem a h2)
      · intro j hj
        rcases List.mem_cons.1 hj with h1 | h2
        · exact h1 ▸ hle
        · exact hall j h2
    · obtain ⟨r, hr, hmem, hle, hall⟩ := ih b
      refine ⟨r, ?_, ?_, hle, ?_⟩
      · simpa [laterOf, hlt] using hr
      · rcases hmem with h1 | h2
        · exact Or.inl h1
        · exact Or.inr (List.mem_cons_of_mem a h2)
      · intro j hj
        rcases List.mem_cons.1 hj with h1 | h2
        · exact h1 ▸ le_trans (not_lt.1 hlt) hle
        · exact hall j h2

/-- C8: a unit with no invoice gets rent_status 'unpaid' (the COALESCE
default); a unit with invoices gets the status of one of its invoices
whose due_date is maximal (the first row of the ORDER BY due_date DESC
LIMIT 1 subquery); and the dashboard card of a vacant unit is coloured as
vacant whatever the invoice-derived rent_status says. -/
theorem rent_status_spec (s : DB) (u_id : Nat) :
    (s.invoices.filter (fun i => i.unit_id == u_id) = [] → rent_status s u_id = "unpaid") ∧
    (s.invoices.filter (fun i => i.unit_id == u_id) ≠ [] →
      ∃ i ∈ s.invoices.filter (fun i => i.unit_id == u_id),
        rent_status s u_id = i.status ∧
        ∀ j ∈ s.invoices.filter (fun j => j.unit_id == u_id), j.due_date ≤ i.due_date) ∧
    (∀ rst, status_color "vacant" rst = "#6c757d") := by
  refine ⟨?_, ?_, fun rst => rfl⟩
  · intro hfil
    simp [rent_status, latestInvoice, hfil]
  · intro hne
    cases hL : s.invoices.filter (fun i => i.unit_id == u_id) with
    | nil => exact absurd hL hne
    | cons a tl =>
      obtain ⟨r, hr, hmem, hle, hall⟩ := foldl_laterOf_spec tl a
      refine ⟨r, ?_, ?_, ?_⟩
      · rcases hmem with h1 | h2
        · exact h1 ▸ List.mem_cons_self a tl
        · exact List.mem_cons_of_mem a h2
      · simp only [rent_status, latestInvoice, hL]
        rw [show (a :: tl).foldl laterOf none = tl.foldl laterOf (some a) from rfl, hr]
      · intro j hj
        rcases List.mem_cons.1 hj with h1 | h2
        · exact h1 ▸ hle
        · exact hall j h2

/-- Helper: a property of the state survives run_query when every
successful outcome of the wrapped statement satisfies it — on failure
run_query hands back the unchanged state. -/
theorem run_query_preserves (P : DB → Prop) (act : DB → Except String DB) (s : DB)
    (hact : ∀ s2, act s = .ok s2 → P s2) (hs : P s) : P (run_query act s).1 := by
  cases h : act s with
  | ok s2 =>
    have : run_query act s = (s2, none) := by simp [run_query, h]
    rw [this]
    exact hact s2 h
  | error e =>
    have : run_query act s = (s, some e) := by simp [run_query, h]
    rw [this]
    exact hs

/-- Helper: occInv only reads the units and tenants tables. -/
theorem occInv_of_tables (s s2 : DB) (hu : s2.units = s.units) (ht : s2.tenants = s.tenants)
    (h : occInv s = true) : occInv s2 = true := by
  unfold occInv
  rw [hu, ht]
  exact h

/-- Helper: a valid tenant reference stays valid when a tenant row is
appended. -/
theorem refOk_append (tl : List Tenant) (r : Tenant) (o : Option Nat)
    (h : refOk tl o = true) : refOk (tl ++ [r]) o = true := by
  cases o with
  | none => rfl
  | some t =>
    simp only [refOk, List.any_append, Bool.or_eq_true]
    exact Or.inl (by simpa [refOk] using h)

theorem occInv_insertTenant (n p e : String) (s s2 : DB)
    (hok : insertTenant n p e s = .ok s2) (h : occInv s = true) : occInv s2 = true := by
  simp only [insertTenant, Except.ok.injEq] at hok
  subst hok
  simp only [occInv, List.all_eq_true] at h ⊢
  intro u hu
  have := h u hu
  simp only [occUnitOk, Bool.and_eq_true] at this ⊢
  exact ⟨this.1, refOk_append _ _ _ this.2⟩

theorem occInv_insertUnit (code floor : String) (rent : ℚ) (s s2 : DB)
    (hok : insertUnit code floor rent s = .ok s2) (h : occInv s = true) : occInv s2 = true := by
  unfold insertUnit at hok
  split at hok
  · cases hok
  · simp only [Except.ok.injEq] at hok
    subst hok
    simp only [occInv, List.all_eq_true, List.mem_append] at h ⊢
    intro u hu
    rcases hu with hu | hu
    · exact h u hu
    · simp only [List.mem_singleton] at hu
      subst hu
      rfl

theorem occInv_vacate (del : Nat) (s s2 : DB)
    (hok : vacateByTenant del s = .ok s2) (h : occInv s = true) : occInv s2 = true := by
  simp only [vacateByTenant, Except.ok.injEq] at hok
  subst hok
  simp only [occInv, List.all_eq_true] at h ⊢
  intro u hu
  simp only [List.mem_map] at hu
  obtain ⟨x, hx, rfl⟩ := hu
  by_cases hc : x.current_tenant_id == some del
  · simp only [hc, if_true]
    rfl
  · simp only [hc, if_false, Bool.false_eq_true, ite_false]
    exact h x hx

theorem occInv_deleteInvoices (del : Nat) (s s2 : DB)
    (hok : deleteInvoicesOf del s = .ok s2) (h : occInv s = true) : occInv s2 = true := by
  simp only [deleteInvoicesOf, Except.ok.injEq] at hok
  subst hok
  exact occInv_of_tables s _ rfl rfl h

theorem occInv_deletePayments (del : Nat) (s s2 : DB)
    (hok : deletePaymentsOf del s = .ok s2) (h : occInv s = true) : occInv s2 = true := by
  simp only [deletePaymentsOf, Except.ok.injEq] at hok
  subst hok
  exact occInv_of_tables s _ rfl rfl h

theorem occInv_insertInvoice (uid tid : Nat) (amt : ℚ) (de du : String) (s s2 : DB)
    (hok : insertInvoice uid tid amt de du s = .ok s2) (h : occInv s = true) :
    occInv s2 = true := by
  unfold insertInvoice at hok
  split at hok
  · simp only [Except.ok.injEq] at hok
    subst hok
    exact occInv_of_tables s _ rfl rfl h
  · cases hok

theorem occInv_updateInvoicePaid (iid : Nat) (s s2 : DB)
    (hok : updateInvoicePaid iid s = .ok s2) (h : occInv s = true) : occInv s2 = true := by
  simp only [updateInvoicePaid, Except.ok.injEq] at hok
  subst hok
  exact occInv_of_tables s _ rfl rfl h

theorem occInv_updateAssign (t_idx u_idx : Nat) (s s2 : DB)
    (hok : updateAssign t_idx u_idx s = .ok s2) (h : occInv s = true) : occInv s2 = true := by
  unfold updateAssign at hok
  split at hok
  · cases hok
  · rename_i hcond
    simp only [Except.ok.injEq] at hok
    subst hok
    simp only [occInv, List.all_eq_true] at h ⊢
    intro u hu
    simp only [List.mem_map] at hu
    obtain ⟨x, hx, rfl⟩ := hu
    by_cases hid : (x.id == u_idx) = true
    · rw [if_pos hid]
      have hunit : (s.units.any (fun u => u.id == u_idx)) = true :=
        List.any_eq_true.2 ⟨x, hx, hid⟩
      have htenant : (s.tenants.any (fun t => t.id == t_idx)) = true := by
        cases hta : s.tenants.any (fun t => t.id == t_idx) with
        | true => rfl
        | false => exact absurd (by rw [hunit, hta]; rfl) hcond
      simp [occUnitOk, refOk, htenant]
    · rw [if_neg hid]
      exact h x hx

theorem occInv_deleteTenantRow (del : Nat) (s s2 : DB)
    (hok : deleteTenantRow del s = .ok s2) (h : occInv s = true) : occInv s2 = true := by
  unfold deleteTenantRow at hok
  split at hok
  · cases hok
  · rename_i hcond
    simp only [Except.ok.injEq] at hok
    subst hok
    simp only [occInv, List.all_eq_true] at h ⊢
    intro u hu
    have hx := h u hu
    simp only [occUnitOk, Bool.and_eq_true] at hx ⊢
    refine ⟨hx.1, ?_⟩
    cases hcti : u.current_tenant_id with
    | none => rfl
    | some t =>
      have href : refOk s.tenants (some t) = true := by
        have h2 := hx.2
        rwa [hcti] at h2
      simp only [refOk, List.any_eq_true] at href
      obtain ⟨r, hr, hrid⟩ := href
      have hrt : r.id = t := by simpa using hrid
      simp only [refOk, List.any_eq_true]
      refine ⟨r, List.mem_filter.2 ⟨hr, ?_⟩, hrid⟩
      simp only [Bool.not_eq_eq_eq_not, Bool.not_true, beq_eq_false_iff_ne, ne_eq]
      intro heq
      apply hcond
      have h1 : (s.tenants.any (fun x => x.id == del)) = true :=
        List.any_eq_true.2 ⟨r, hr, by simpa using heq⟩
      have h2 : (s.units.any (fun x => x.current_tenant_id == some del)) = true := by
        refine List.any_eq_true.2 ⟨u, hu, ?_⟩
        have hdel : t = del := hrt ▸ heq
        rw [hcti, hdel]
        simp
      rw [h1, h2]
      rfl

theorem occInv_unit_form (s : DB) (code floor : String) (rent : ℚ) (h : occInv s = true) :
    occInv (unit_form s code floor rent).1 = true :=
  run_query_preserves (fun x => occInv x = true) (insertUnit code floor rent) s
    (fun s2 hok => occInv_insertUnit code floor rent s s2 hok h) h

theorem occInv_add_tenant (s : DB) (n p e : String) (h : occInv s = true) :
    occInv (add_tenant s n p e).1 = true := by
  unfold add_tenant
  split
  · exact run_query_preserves (fun x => occInv x = true) (insertTenant n p e) s
      (fun s2 hok => occInv_insertTenant n p e s s2 hok h) h
  · exact h

theorem occInv_assign_form (s : DB) (u t : Nat) (h : occInv s = true) :
    occInv (assign_form s u t).1 = true :=
  run_query_preserves (fun x => occInv x = true) (updateAssign t u) s
    (fun s2 hok => occInv_updateAssign t u s s2 hok h) h

theorem occInv_delete_tenant_form (s : DB) (del : Nat) (hist : Bool) (h : occInv s = true) :
    occInv (delete_tenant_form s del hist).1 = true := by
  have h1 : occInv (run_query (vacateByTenant del) s).1 = true :=
    run_query_preserves (fun x => occInv x = true) (vacateByTenant del) s
      (fun s2 hok => occInv_vacate del s s2 hok h) h
  cases hist with
  | false =>
    exact run_query_preserves (fun x => occInv x = true) (deleteTenantRow del) _
      (fun s2 hok => occInv_deleteTenantRow del _ s2 hok h1) h1
  | true =>
    have h2 : occInv (run_query (deleteInvoicesOf del)
        (run_query (vacateByTenant del) s).1).1 = true :=
      run_query_preserves (fun x => occInv x = true) (deleteInvoicesOf del) _
        (fun s2 hok => occInv_deleteInvoices del _ s2 hok h1) h1
    have h3 : occInv (run_query (deletePaymentsOf del)
        (run_query (deleteInvoicesOf del) (run_query (vacateByTenant del) s).1).1).1 = true :=
      run_query_preserves (fun x => occInv x = true) (deletePaymentsOf del) _
        (fun s2 hok => occInv_deletePayments del _ s2 hok h2) h2
    exact run_query_preserves (fun x => occInv x = true) (deleteTenantRow del) _
      (fun s2 hok => occInv_deleteTenantRow del _ s2 hok h3) h3

theorem occInv_inv_form (s : DB) (uid tid : Nat) (amt : ℚ) (de du : String)
    (h : occInv s = true) : occInv (inv_form s uid tid amt de du).1 = true :=
  run_query_preserves (fun x => occInv x = true) (insertInvoice uid tid amt de du) s
    (fun s2 hok => occInv_insertInvoice uid tid amt de du s s2 hok h) h

theorem occInv_pay_form (s : DB) (tid uid iid : Nat) (amt : ℚ) (d : String)
    (h : occInv s = true) : occInv (pay_form s tid uid iid amt d).1 = true := by
  have h1 : occInv (run_query (insertPayment tid uid amt) s).1 = true :=
    run_query_preserves (fun x => occInv x = true) (insertPayment tid uid amt) s
      (fun s2 hok => by simp [insertPayment] at hok) h
  exact run_query_preserves (fun x => occInv x = true) (updateInvoicePaid iid) _
    (fun s2 hok => occInv_updateInvoicePaid iid _ s2 hok h1) h1

/-- Helper: the strengthened invariant implies the spec's wording of the
occupancy invariant. -/
theorem claimInv_of_occInv (s : DB) (h : occInv s = true) : claimInv s = true := by
  simp only [occInv, claimInv, List.all_eq_true] at h ⊢
  intro u hu
  have hx := h u hu
  simp only [occUnitOk, Bool.and_eq_true] at hx
  obtain ⟨hiff, href⟩ := hx
  cases hcti : u.current_tenant_id with
  | none => simpa [hcti] using hiff
  | some t =>
    have href2 : refOk s.tenants (some t) = true := hcti ▸ href
    simpa [hcti, href2] using hiff

/-- C6: if the store satisfies the occupancy invariant then every form
submission — CreateUnit, CreateTenant, AssignTenant, DeleteTenant (which
vacates the tenant's unit, with either cascade setting), CreateInvoice
and RecordPayment — leaves a store that still satisfies it, and the
invariant implies the spec's wording: a unit's status is 'occupied'
exactly when its current_tenant_id is non-null and refers to an existing
tenant row.  Newly created units enter the table as vacant with a null
tenant, assignment sets status and tenant pointer together, and vacating
clears both together, so the invariant is maintained at every step. -/
theorem mutations_preserve_occupancy_invariant (s : DB)
    (code floor name phone email desc due d : String) (rent amt pamt : ℚ)
    (u t del tid uid iid : Nat) (hist : Bool) (h : occInv s = true) :
    occInv (unit_form s code floor rent).1 = true ∧
    occInv (add_tenant s name phone email).1 = true ∧
    occInv (assign_form s u t).1 = true ∧
    occInv (delete_tenant_form s del hist).1 = true ∧
    occInv (inv_form s uid tid amt desc due).1 = true ∧
    occInv (pay_form s tid uid iid pamt d).1 = true ∧
    claimInv s = true :=
  ⟨occInv_unit_form s code floor rent h,
   occInv_add_tenant s name phone email h,
   occInv_assign_form s u t h,
   occInv_delete_tenant_form s del hist h,
   occInv_inv_form s uid tid amt desc due h,
   occInv_pay_form s tid uid iid pamt d h,
   claimInv_of_occInv s h⟩

/-- C6, witness: the invariant holds on ashaDB and survives each handler
at concrete arguments. -/
theorem mutations_preserve_occupancy_invariant_witness :
    occInv (unit_form ashaDB "202" "2nd" 6000).1 = true ∧
    occInv (add_tenant ashaDB "Bala" "99" "b@x.in").1 = true ∧
    occInv (assign_form ashaDB 1 1).1 = true ∧
    occInv (delete_tenant_form ashaDB 1 true).1 = true ∧
    occInv (inv_form ashaDB 1 1 5000 "Monthly Rent" "2024-02-05").1 = true ∧
    occInv (pay_form ashaDB 1 1 1 5000 "2024-01-06").1 = true ∧
    claimInv ashaDB = true :=
  mutations_preserve_occupancy_invariant ashaDB "202" "2nd" "Bala" "99" "b@x.in"
    "Monthly Rent" "2024-02-05" "2024-01-06" 6000 5000 5000 1 1 1 1 1 1 true (by decide)

/-- C8, witness: in ledgDB, unit 2 has no invoices so its rent_status is
'unpaid'; unit 1 has an invoice of maximal due date supplying its
rent_status; and a vacant unit's card is grey even with rent_status
'paid'. -/
theorem rent_status_spec_witness :
    rent_status ledgDB 2 = "unpaid" ∧
    (∃ i ∈ ledgDB.invoices.filter (fun i => i.unit_id == 1),
      rent_status ledgDB 1 = i.status ∧
      ∀ j ∈ ledgDB.invoices.filter (fun j => j.unit_id == 1), j.due_date ≤ i.due_date) ∧
    status_color "vacant" "paid" = "#6c757d" :=
  ⟨(rent_status_spec ledgDB 2).1 (by decide),
   (rent_status_spec ledgDB 1).2.1 (by decide),
   (rent_status_spec ledgDB 1).2.2 "paid"⟩
